import Mathlib

/-!
Verification of `src/app/frontend.py` (FastApi-Media-App browser client).

The development shallowly embeds:
  * the media-URL transform builder (`encode_text_for_overlay`,
    `create_transformed_url`) together with faithful models of the Python
    library functions it uses (`base64.b64encode`, `urllib.parse.quote` with
    its default `safe="/"` set, and UTF-8 encoding of the caption);
  * spec-side decoders (`percentDecodeBytes` modelling
    `urllib.parse.unquote_to_bytes`, `b64decodeBytes` modelling strict base64
    decoding) used to state the round-trip law;
  * the session/auth controller: the module-level reconcile block
    (frontend.py lines 35-48), the login and signup button handlers
    (lines 90-131), and the per-post delete fragment of the feed page
    (lines 176-194).  Transport-level exceptions of `requests` calls are
    modelled by an `Except Unit` oracle per call site; a handler that lets an
    exception escape returns `Except.error`.
-/

namespace MediaApp

/-- Concatenation of the images of `f`, in order (`List.flatMap`). -/
def flatMapL (f : α → List β) : List α → List β
  | [] => []
  | a :: l => f a ++ flatMapL f l

/-- UTF-8 encoding of a single character, as byte values
(models what `str.encode("utf-8")` does per code point). -/
def utf8EncodeChar (c : Char) : List Nat :=
  if c.toNat < 128 then [c.toNat]
  else if c.toNat < 2048 then
    [192 + c.toNat / 64, 128 + c.toNat % 64]
  else if c.toNat < 65536 then
    [224 + c.toNat / 4096, 128 + c.toNat / 64 % 64, 128 + c.toNat % 64]
  else
    [240 + c.toNat / 262144, 128 + c.toNat / 4096 % 64,
     128 + c.toNat / 64 % 64, 128 + c.toNat % 64]

/-- UTF-8 bytes of a string (models Python `text.encode("utf-8")`). -/
def utf8Bytes (s : String) : List Nat :=
  flatMapL utf8EncodeChar s.data

/-- The standard base64 alphabet, in value order. -/
def b64Alphabet : List Char :=
  ['A', 'B', 'C', 'D', 'E', 'F', 'G', 'H', 'I', 'J', 'K', 'L', 'M',
   'N', 'O', 'P', 'Q', 'R', 'S', 'T', 'U', 'V', 'W', 'X', 'Y', 'Z',
   'a', 'b', 'c', 'd', 'e', 'f', 'g', 'h', 'i', 'j', 'k', 'l', 'm',
   'n', 'o', 'p', 'q', 'r', 's', 't', 'u', 'v', 'w', 'x', 'y', 'z',
   '0', '1', '2', '3', '4', '5', '6', '7', '8', '9', '+', '/']

/-- Character for a 6-bit group. -/
def b64EncChar (k : Nat) : Char := b64Alphabet.getD k 'A'

/-- Base64 encoding of a byte list with `=` padding
(models Python `base64.b64encode`). -/
def b64encode : List Nat → List Char
  | [] => []
  | [b0] => [b64EncChar (b0 / 4), b64EncChar (b0 % 4 * 16), '=', '=']
  | [b0, b1] => [b64EncChar (b0 / 4), b64EncChar (b0 % 4 * 16 + b1 / 16),
                 b64EncChar (b1 % 16 * 4), '=']
  | b0 :: b1 :: b2 :: rest =>
      b64EncChar (b0 / 4) :: b64EncChar (b0 % 4 * 16 + b1 / 16) ::
      b64EncChar (b1 % 16 * 4 + b2 / 64) :: b64EncChar (b2 % 64) ::
      b64encode rest

/-- Uppercase hexadecimal digit, as used by `urllib.parse.quote`. -/
def hexDigit (n : Nat) : Char :=
  ['0', '1', '2', '3', '4', '5', '6', '7', '8', '9',
   'A', 'B', 'C', 'D', 'E', 'F'].getD n '0'

/-- Characters `urllib.parse.quote` leaves unescaped with its DEFAULT
arguments: the always-safe set (ASCII alphanumerics and `_.-~`) plus the
default value of the `safe` parameter, which is `"/"`. -/
def isSafeChar (c : Char) : Bool :=
  c.isAlphanum || c = '_' || c = '.' || c = '-' || c = '~' || c = '/'

/-- Percent-encoding of a single character: safe characters pass through,
anything else is UTF-8 encoded and each byte becomes `%XX`. -/
def quoteChar (c : Char) : List Char :=
  if isSafeChar c then [c]
  else flatMapL (fun b => ['%', hexDigit (b / 16), hexDigit (b % 16)]) (utf8EncodeChar c)

/-- Model of `urllib.parse.quote` (default `safe="/"`) on a character list. -/
def percentQuote (l : List Char) : List Char :=
  flatMapL quoteChar l

/-- frontend.py lines 53-58, `encode_text_for_overlay`:
`base64.b64encode(text.encode("utf-8")).decode("utf-8")` followed by
`urllib.parse.quote`; empty text yields the empty string. -/
def encode_text_for_overlay (text : String) : String :=
  if text = "" then ""
  else String.mk (percentQuote (b64encode (utf8Bytes text)))

/-- The caption-overlay transform template built in frontend.py line 63. -/
def overlayTransform (caption : String) : String :=
  "l-text,ie-" ++ encode_text_for_overlay caption ++
    ",ly-N20,lx-20,fs-100,co-white,bg-000000A0,l-end"

/-- Split a character list at every `/`, keeping empty segments: the exact
behaviour of Python `original_url.split("/")` (and of `String.splitOn "/"`),
stated on `String.data` so that it evaluates by kernel reduction. -/
def splitOnSlash : List Char → List (List Char)
  | [] => [[]]
  | c :: rest =>
    match splitOnSlash rest with
    | [] => [[]]
    | seg :: segs => if c = '/' then [] :: seg :: segs else (c :: seg) :: segs

/-- Join segments with `/` between them: Python `"/".join(parts)`. -/
def joinSegs : List (List Char) → List Char
  | [] => []
  | [seg] => seg
  | seg :: segs => seg ++ '/' :: joinSegs segs

/-- frontend.py lines 60-75, `create_transformed_url`.
A non-empty caption (Python truthiness of `if caption:`) replaces the
transformation parameters by the overlay template.  Empty parameters are a
no-op, as is a URL with fewer than 5 `/`-separated parts; otherwise the
first 4 parts are the base, parts 4.. are the file path (part 3, the
ImageKit id, is read by the source but unused in the output). -/
def create_transformed_url (original_url : String) (transformation_params : String)
    (caption : Option String) : String :=
  let tp := match caption with
    | some c => if c = "" then transformation_params else overlayTransform c
    | none => transformation_params
  if tp = "" then original_url
  else
    let parts := splitOnSlash original_url.data
    if parts.length < 5 then original_url
    else
      let file_path := String.mk (joinSegs (List.drop 4 parts))
      let base_url := String.mk (joinSegs (List.take 4 parts))
      base_url ++ "/tr:" ++ tp ++ "/" ++ file_path

/-- Is `c` an ASCII hexadecimal digit (either case)? -/
def isHexDigitB (c : Char) : Bool :=
  (48 ≤ c.toNat && c.toNat ≤ 57) || (65 ≤ c.toNat && c.toNat ≤ 70) ||
    (97 ≤ c.toNat && c.toNat ≤ 102)

/-- Value of an ASCII hexadecimal digit. -/
def hexVal (c : Char) : Nat :=
  if 48 ≤ c.toNat && c.toNat ≤ 57 then c.toNat - 48
  else if 65 ≤ c.toNat && c.toNat ≤ 70 then c.toNat - 55
  else c.toNat - 87

/-- Spec-side URL-decoder (models `urllib.parse.unquote_to_bytes`): a `%`
followed by two hex digits becomes that byte; anything else contributes its
UTF-8 bytes unchanged. -/
def percentDecodeBytes : List Char → List Nat
  | [] => []
  | c :: c1 :: c2 :: rest =>
      if c = '%' then
        if isHexDigitB c1 && isHexDigitB c2 then
          (hexVal c1 * 16 + hexVal c2) :: percentDecodeBytes rest
        else utf8EncodeChar c ++ percentDecodeBytes (c1 :: c2 :: rest)
      else utf8EncodeChar c ++ percentDecodeBytes (c1 :: c2 :: rest)
  | c :: rest => utf8EncodeChar c ++ percentDecodeBytes rest

/-- Value of a base64 alphabet byte, `none` outside the alphabet. -/
def decVal (b : Nat) : Option Nat :=
  if 65 ≤ b ∧ b ≤ 90 then some (b - 65)
  else if 97 ≤ b ∧ b ≤ 122 then some (b - 71)
  else if 48 ≤ b ∧ b ≤ 57 then some (b + 4)
  else if b = 43 then some 62
  else if b = 47 then some 63
  else none

/-- Spec-side strict base64 decoder on ASCII byte values (pad byte is 61,
`=`): inverse direction of `b64encode`. -/
def b64decodeBytes : List Nat → Option (List Nat)
  | [] => some []
  | b0 :: b1 :: b2 :: b3 :: rest =>
      Option.bind (decVal b0) fun d0 =>
      Option.bind (decVal b1) fun d1 =>
      if b2 = 61 ∧ b3 = 61 ∧ rest = [] then
        some [d0 * 4 + d1 / 16]
      else if b3 = 61 ∧ rest = [] then
        Option.bind (decVal b2) fun d2 =>
        some [d0 * 4 + d1 / 16, d1 % 16 * 16 + d2 / 4]
      else
        Option.bind (decVal b2) fun d2 =>
        Option.bind (decVal b3) fun d3 =>
        Option.bind (b64decodeBytes rest) fun bs =>
        some ((d0 * 4 + d1 / 16) :: (d1 % 16 * 16 + d2 / 4) :: (d2 % 4 * 64 + d3) :: bs)
  | _ => none

/-- `UserIdentity` record; only `email` is read by the UI. -/
structure UserIdentity where
  email : String
deriving DecidableEq

/-- The cross-render state: `st.session_state.token`, `st.session_state.user`,
`st.session_state.last_token_check_failed`, plus the persisted token carrier
(the `token` URL query parameter written by
`st.experimental_set_query_params`). -/
structure Session where
  token : Option String
  user : Option UserIdentity
  last_token_check_failed : Bool
  carrier : Option String
deriving DecidableEq

/-- Parsed response of `GET /users/me`. -/
structure MeResp where
  status : Nat
  body : UserIdentity
deriving DecidableEq

/-- Parsed response of `POST /auth/jwt/login`. -/
structure LoginResp where
  status : Nat
  access_token : String
deriving DecidableEq

/-- Parsed response of `POST /auth/register`; `detail = none` models a body
whose JSON cannot be parsed or has no `detail` key. -/
structure RegisterResp where
  status : Nat
  detail : Option String
deriving DecidableEq

/-- User-visible outputs a handler can emit (`st.error`, `st.success`,
`st.rerun`). -/
inductive UiMsg
  | error (msg : String)
  | success (msg : String)
  | rerun
deriving DecidableEq

/-- The §4.2 controller states. -/
inductive AuthState
  | Unauthenticated
  | PendingVerification
  | VerificationFailed
  | Authenticated
deriving DecidableEq

/-- Classification of a session into the §4.2 state machine. -/
def stateOf (s : Session) : AuthState :=
  match s.token, s.user with
  | none, _ => AuthState.Unauthenticated
  | some _, some _ => AuthState.Authenticated
  | some _, none =>
      if s.last_token_check_failed then AuthState.VerificationFailed
      else AuthState.PendingVerification

/-- Guard of the module-level reconcile block, frontend.py line 35:
`if st.session_state.token and st.session_state.user is None and not
st.session_state.last_token_check_failed`.  Python truthiness of the token
makes `None` and the empty string both falsy. -/
def reconcileGuard (s : Session) : Bool :=
  !(s.token.getD "" = "") && s.user.isNone && !s.last_token_check_failed

/-- frontend.py lines 35-48, the module-level reconcile block.  The oracle
`me` is what `requests.get(f".../users/me", ...)` would produce:
`Except.error` for a raised transport exception, `Except.ok` for a response.
The whole call is inside `try/except`, so the block always returns a state
(never `Except.error`): status 200 stores the user; any other status clears
token, user and the URL carrier and sets the one-shot failure flag; an
exception only sets the flag. -/
def reconcileStep (s : Session) (me : Except Unit MeResp) : Except Unit Session :=
  if reconcileGuard s then
    match me with
    | Except.ok r =>
        if r.status = 200 then Except.ok { s with user := some r.body }
        else Except.ok { s with token := none, user := none,
                                carrier := none, last_token_check_failed := true }
    | Except.error _ => Except.ok { s with last_token_check_failed := true }
  else Except.ok s

/-- frontend.py lines 90-113, the Login button handler.  `loginResp` is the
oracle for `POST /auth/jwt/login` (wrapped in `try/except`, line 92-96);
`meResp` is the oracle for the `GET /users/me` on line 106, which the source
does NOT wrap in any `try/except`, so its transport exception escapes the
handler (modelled by returning `Except.error`). -/
def login_handler (s : Session) (loginResp : Except Unit LoginResp)
    (meResp : Except Unit MeResp) : Except Unit (Session × List UiMsg) :=
  match loginResp with
  | Except.error _ =>
      Except.ok (s, [UiMsg.error "Could not contact backend. Is the API running?"])
  | Except.ok r =>
      if r.status = 200 then
        let s1 : Session := { s with token := some r.access_token,
                                     carrier := some r.access_token }
        match meResp with
        | Except.error e => Except.error e
        | Except.ok ur =>
            if ur.status = 200 then
              Except.ok ({ s1 with user := some ur.body }, [UiMsg.rerun])
            else
              Except.ok (s1, [UiMsg.error "Failed to get user info"])
      else
        Except.ok (s, [UiMsg.error "Invalid email or password!"])

/-- frontend.py lines 116-131, the Sign Up button handler; the POST is
wrapped in `try/except`, and the body parse failure falls back to a generic
message (modelled by `detail = none`). -/
def signup_handler (s : Session) (resp : Except Unit RegisterResp) :
    Except Unit (Session × List UiMsg) :=
  match resp with
  | Except.error _ =>
      Except.ok (s, [UiMsg.error "Could not contact backend. Is the API running?"])
  | Except.ok r =>
      if r.status = 201 then
        Except.ok (s, [UiMsg.success "Account created! Click Login now."])
      else
        Except.ok (s, [UiMsg.error ("Registration failed: " ++ r.detail.getD "Registration failed")])

/-- Snapshot of one feed post as rendered by `feed_page`; `is_owner = none`
models a JSON object without the key (`post.get('is_owner', False)`). -/
structure Post where
  id : String
  email : String
  created_at : String
  caption : String
  file_type : String
  url : String
  is_owner : Option Bool
deriving DecidableEq

/-- Backend requests the per-post fragment of `feed_page` can issue. -/
inductive BackendRequest
  | deletePost (id : String)
deriving DecidableEq

/-- frontend.py line 182: the delete button is rendered only when
`post.get('is_owner', False)` is truthy. -/
def deleteOffered (p : Post) : Bool :=
  p.is_owner.getD false

/-- frontend.py lines 182-194: backend requests issued by the per-post
fragment of the feed render, given whether the (rendered) delete button was
clicked; the DELETE call happens only inside the `is_owner` guard. -/
def postRenderRequests (p : Post) (clicked : Bool) : List BackendRequest :=
  if deleteOffered p then
    if clicked then [BackendRequest.deletePost p.id] else []
  else []

/-! ## Helper lemmas -/

/-- Induction in chunks of three, matching the recursion of `b64encode`. -/
theorem chunk3L {P : List Nat → Prop} (h0 : P []) (h1 : ∀ a, P [a])
    (h2 : ∀ a b, P [a, b]) (h3 : ∀ a b c l, P l → P (a :: b :: c :: l)) :
    ∀ l, P l
  | [] => h0
  | [a] => h1 a
  | [a, b] => h2 a b
  | a :: b :: c :: l => h3 a b c l (chunk3L h0 h1 h2 h3 l)

/-- Every Unicode scalar value is below `0x110000`. -/
theorem char_toNat_lt_unicode (c : Char) : c.toNat < 1114112 := by
  rcases c with ⟨v, hv⟩
  rcases hv with h | ⟨h1, h2⟩
  · show v.toNat < 1114112
    omega
  · exact h2

/-- UTF-8 bytes of a character are bytes. -/
theorem utf8EncodeChar_lt (c : Char) : ∀ b ∈ utf8EncodeChar c, b < 256 := by
  have hc := char_toNat_lt_unicode c
  intro b hb
  simp only [utf8EncodeChar] at hb
  split at hb
  · simp only [List.mem_singleton] at hb
    omega
  · split at hb
    · simp only [List.mem_cons, List.not_mem_nil, or_false] at hb
      rcases hb with rfl | rfl <;> omega
    · split at hb
      · simp only [List.mem_cons, List.not_mem_nil, or_false] at hb
        rcases hb with rfl | rfl | rfl <;> omega
      · simp only [List.mem_cons, List.not_mem_nil, or_false] at hb
        rcases hb with rfl | rfl | rfl | rfl <;> omega

/-- An ASCII character UTF-8 encodes to its own single byte. -/
theorem utf8EncodeChar_ascii (c : Char) (h : c.toNat < 128) :
    utf8EncodeChar c = [c.toNat] := by
  simp [utf8EncodeChar, h]

/-- UTF-8 bytes of a char list are bytes. -/
theorem flat_utf8_lt (l : List Char) : ∀ b ∈ flatMapL utf8EncodeChar l, b < 256 := by
  induction l with
  | nil => intro b hb; simp [flatMapL] at hb
  | cons c cs ih =>
    intro b hb
    simp only [flatMapL, List.mem_append] at hb
    rcases hb with hb | hb
    · exact utf8EncodeChar_lt c b hb
    · exact ih b hb

/-- UTF-8 bytes of a string are bytes. -/
theorem utf8Bytes_lt (s : String) : ∀ b ∈ utf8Bytes s, b < 256 :=
  flat_utf8_lt s.data

/-- A base64 output character is always drawn from the alphabet
(out-of-range groups give the default `'A'`, itself in the alphabet). -/
theorem b64EncChar_mem (k : Nat) : b64EncChar k ∈ b64Alphabet := by
  unfold b64EncChar
  by_cases hk : k < b64Alphabet.length
  · rw [List.getD_eq_getElem _ _ hk]
    exact List.getElem_mem _
  · rw [List.getD_eq_default _ _ (by omega)]
    decide

/-- Base64 alphabet characters are ASCII. -/
theorem b64EncChar_ascii (k : Nat) : (b64EncChar k).toNat < 128 :=
  (by decide : ∀ c ∈ b64Alphabet, c.toNat < 128) _ (b64EncChar_mem k)

/-- No base64 alphabet character is the pad byte 61 (`=`). -/
theorem b64EncChar_ne_61 (k : Nat) : (b64EncChar k).toNat ≠ 61 :=
  (by decide : ∀ c ∈ b64Alphabet, c.toNat ≠ 61) _ (b64EncChar_mem k)

/-- `decVal` inverts `b64EncChar` on 6-bit groups. -/
theorem decVal_encChar : ∀ k, k < 64 → decVal ((b64EncChar k).toNat) = some k := by
  decide

/-- `hexDigit` produces hex digits. -/
theorem hexDigit_isHex : ∀ n, n < 16 → isHexDigitB (hexDigit n) = true := by
  decide

/-- `hexVal` inverts `hexDigit`. -/
theorem hexVal_hexDigit : ∀ n, n < 16 → hexVal (hexDigit n) = n := by
  decide

/-- Characters of a base64 text are ASCII. -/
theorem b64encode_ascii (bs : List Nat) : ∀ c ∈ b64encode bs, c.toNat < 128 := by
  induction bs using chunk3L with
  | h0 => intro c hc; simp [b64encode] at hc
  | h1 a =>
    intro c hc
    simp only [b64encode, List.mem_cons, List.not_mem_nil, or_false] at hc
    rcases hc with rfl | rfl | rfl | rfl
    · exact b64EncChar_ascii _
    · exact b64EncChar_ascii _
    · decide
    · decide
  | h2 a b =>
    intro c hc
    simp only [b64encode, List.mem_cons, List.not_mem_nil, or_false] at hc
    rcases hc with rfl | rfl | rfl | rfl
    · exact b64EncChar_ascii _
    · exact b64EncChar_ascii _
    · exact b64EncChar_ascii _
    · decide
  | h3 a b c l ih =>
    intro x hx
    simp only [b64encode, List.mem_cons] at hx
    rcases hx with rfl | rfl | rfl | rfl | hx
    · exact b64EncChar_ascii _
    · exact b64EncChar_ascii _
    · exact b64EncChar_ascii _
    · exact b64EncChar_ascii _
    · exact ih x hx

/-- A non-`%` head character is passed through as its UTF-8 bytes. -/
theorem percentDecodeBytes_cons_ne (c : Char) (L : List Char) (hne : c ≠ '%') :
    percentDecodeBytes (c :: L) = utf8EncodeChar c ++ percentDecodeBytes L := by
  rcases L with _ | ⟨c1, L⟩
  · rfl
  · rcases L with _ | ⟨c2, L⟩
    · rfl
    · show (if c = '%' then _ else _) = _
      rw [if_neg hne]

/-- A valid `%XX` escape decodes to its byte. -/
theorem percentDecodeBytes_escape (c1 c2 : Char) (L : List Char)
    (h1 : isHexDigitB c1 = true) (h2 : isHexDigitB c2 = true) :
    percentDecodeBytes ('%' :: c1 :: c2 :: L) =
      (hexVal c1 * 16 + hexVal c2) :: percentDecodeBytes L := by
  show (if ('%' : Char) = '%' then _ else _) = _
  rw [if_pos rfl, if_pos (by simp [h1, h2])]

/-- URL-decoding inverts `percentQuote` on ASCII text, producing the byte
values of the original characters. -/
theorem percentDecode_quote (l : List Char) (h : ∀ c ∈ l, c.toNat < 128) :
    percentDecodeBytes (percentQuote l) = l.map Char.toNat := by
  induction l with
  | nil => rfl
  | cons c cs ih =>
    have hc : c.toNat < 128 := h c (by simp)
    have hcs : ∀ x ∈ cs, x.toNat < 128 := fun x hx => h x (by simp [hx])
    show percentDecodeBytes (quoteChar c ++ percentQuote cs) = c.toNat :: cs.map Char.toNat
    by_cases hs : isSafeChar c
    · rw [quoteChar, if_pos hs]
      have hne : c ≠ '%' := by
        intro he
        rw [he] at hs
        exact absurd hs (by decide)
      simp only [List.cons_append, List.nil_append]
      rw [percentDecodeBytes_cons_ne c _ hne, utf8EncodeChar_ascii c hc]
      simp [ih hcs]
    · rw [quoteChar, if_neg hs, utf8EncodeChar_ascii c hc]
      simp only [flatMapL, List.append_nil, List.cons_append, List.nil_append]
      rw [percentDecodeBytes_escape _ _ _ (hexDigit_isHex (c.toNat / 16) (by omega))
            (hexDigit_isHex (c.toNat % 16) (by omega))]
      rw [hexVal_hexDigit (c.toNat / 16) (by omega),
          hexVal_hexDigit (c.toNat % 16) (by omega)]
      have e : c.toNat / 16 * 16 + c.toNat % 16 = c.toNat := by omega
      rw [e, ih hcs]

/-- Base64 decoding inverts `b64encode` on byte lists. -/
theorem b64decode_encode (bs : List Nat) (hb : ∀ b ∈ bs, b < 256) :
    b64decodeBytes ((b64encode bs).map Char.toNat) = some bs := by
  induction bs using chunk3L with
  | h0 => rfl
  | h1 a =>
    have ha : a < 256 := hb a (by simp)
    simp only [b64encode, List.map_cons, List.map_nil]
    rw [b64decodeBytes]
    rw [decVal_encChar (a / 4) (by omega), decVal_encChar (a % 4 * 16) (by omega)]
    simp only [Option.some_bind]
    split
    · have e : a / 4 * 4 + a % 4 * 16 / 16 = a := by omega
      rw [e]
    · next hcon => exact absurd (by decide) hcon
  | h2 a b =>
    have ha : a < 256 := hb a (by simp)
    have hb2 : b < 256 := hb b (by simp)
    simp only [b64encode, List.map_cons, List.map_nil]
    rw [b64decodeBytes]
    rw [decVal_encChar (a / 4) (by omega),
        decVal_encChar (a % 4 * 16 + b / 16) (by omega)]
    simp only [Option.some_bind]
    split
    · next hcon => exact absurd hcon.1 (b64EncChar_ne_61 _)
    · split
      · rw [decVal_encChar (b % 16 * 4) (by omega)]
        simp only [Option.some_bind]
        have e0 : a / 4 * 4 + (a % 4 * 16 + b / 16) / 16 = a := by omega
        have e1 : (a % 4 * 16 + b / 16) % 16 * 16 + b % 16 * 4 / 4 = b := by omega
        rw [e0, e1]
      · next hcon => exact absurd ⟨by decide, trivial⟩ hcon
  | h3 a b c l ih =>
    have ha : a < 256 := hb a (by simp)
    have hb2 : b < 256 := hb b (by simp)
    have hc : c < 256 := hb c (by simp)
    have hl : ∀ x ∈ l, x < 256 := fun x hx => hb x (by simp [hx])
    simp only [b64encode, List.map_cons]
    rw [b64decodeBytes]
    rw [decVal_encChar (a / 4) (by omega),
        decVal_encChar (a % 4 * 16 + b / 16) (by omega)]
    simp only [Option.some_bind]
    split
    · next hcon => exact absurd hcon.1 (b64EncChar_ne_61 _)
    · split
      · next hcon => exact absurd hcon.1 (b64EncChar_ne_61 _)
      · rw [decVal_encChar (b % 16 * 4 + c / 64) (by omega),
            decVal_encChar (c % 64) (by omega), ih hl]
        simp only [Option.some_bind]
        have e0 : a / 4 * 4 + (a % 4 * 16 + b / 16) / 16 = a := by omega
        have e1 : (a % 4 * 16 + b / 16) % 16 * 16 + (b % 16 * 4 + c / 64) / 4 = b := by omega
        have e2 : (b % 16 * 4 + c / 64) % 4 * 64 + c % 64 = c := by omega
        rw [e0, e1, e2]

/-! ## Claims -/

/-- C5: for a URL with at least 5 `/`-separated segments, an empty caption and
a non-empty transform, `create_transformed_url` returns the first 4 segments,
then `/tr:` plus the transform, then `/` plus segments 4.. ; in particular the
spec's concrete example holds. -/
theorem buildUrl_splices_transform (url t : String)
    (hlen : 5 ≤ (splitOnSlash url.data).length) (ht : t ≠ "") :
    create_transformed_url url t none =
      String.mk (joinSegs (List.take 4 (splitOnSlash url.data))) ++ "/tr:" ++ t ++
        "/" ++ String.mk (joinSegs (List.drop 4 (splitOnSlash url.data))) ∧
    create_transformed_url "https://ik.io/abc/d/e.jpg" "w-10" none =
      "https://ik.io/abc/tr:w-10/d/e.jpg" := by
  constructor
  · simp only [create_transformed_url, if_neg ht]
    rw [if_neg (by omega)]
  · decide

/-- Witness for C5 at the spec's concrete example. -/
theorem buildUrl_splices_transform_witness :
    create_transformed_url "https://ik.io/abc/d/e.jpg" "w-10" none =
      String.mk (joinSegs (List.take 4 (splitOnSlash "https://ik.io/abc/d/e.jpg".data))) ++
        "/tr:" ++ "w-10" ++ "/" ++
        String.mk (joinSegs (List.drop 4 (splitOnSlash "https://ik.io/abc/d/e.jpg".data))) ∧
    create_transformed_url "https://ik.io/abc/d/e.jpg" "w-10" none =
      "https://ik.io/abc/tr:w-10/d/e.jpg" :=
  buildUrl_splices_transform "https://ik.io/abc/d/e.jpg" "w-10" (by decide) (by decide)

/-- C8: a URL splitting into fewer than 5 segments (the empty string included)
is returned unchanged for any transform and no caption. -/
theorem buildUrl_short_url_noop (url t : String)
    (hlen : (splitOnSlash url.data).length < 5) :
    create_transformed_url url t none = url := by
  simp only [create_transformed_url]
  split
  · rfl
  · rfl

/-- Witness for C8 at the empty URL. -/
theorem buildUrl_short_url_noop_witness :
    create_transformed_url "" "w-10" none = "" :=
  buildUrl_short_url_noop "" "w-10" (by decide)

/-- The char-level splitter agrees with `String.splitOn "/"` on the example
URL, tying `splitOnSlash` back to the library split the source uses. -/
theorem splitOnSlash_example :
    String.mk <$> splitOnSlash "https://ik.io/abc/d/e.jpg".data =
      ["https:", "", "ik.io", "abc", "d", "e.jpg"] := by
  decide

/-- C1: the caption branch does ignore the transform argument, and the token
is `quote(b64encode(utf8(caption)))`; but `urllib.parse.quote` is called with
its default `safe="/"`, so `+` and `=` are percent-escaped while `/` is NOT.
The claim's assertion that `/` is replaced by a percent-escape fails. -/
theorem caption_overlay_encoding (url t1 t2 c : String) (hc : c ≠ "") :
    create_transformed_url url t1 (some c) = create_transformed_url url t2 (some c) ∧
    encode_text_for_overlay c = String.mk (percentQuote (b64encode (utf8Bytes c))) ∧
    quoteChar '+' = ['%', '2', 'B'] ∧
    quoteChar '=' = ['%', '3', 'D'] ∧
    quoteChar '/' = ['/'] := by
  refine ⟨?_, ?_, by decide, by decide, by decide⟩
  · simp only [create_transformed_url, if_neg hc]
  · simp only [encode_text_for_overlay, if_neg hc]

/-- Witness for C1's amended statement at caption `"hi"`. -/
theorem caption_overlay_encoding_witness :
    create_transformed_url "https://ik.io/abc/d/e.jpg" "w-10" (some "hi") =
      create_transformed_url "https://ik.io/abc/d/e.jpg" "x-1" (some "hi") ∧
    encode_text_for_overlay "hi" = String.mk (percentQuote (b64encode (utf8Bytes "hi"))) ∧
    quoteChar '+' = ['%', '2', 'B'] ∧
    quoteChar '=' = ['%', '3', 'D'] ∧
    quoteChar '/' = ['/'] :=
  caption_overlay_encoding "https://ik.io/abc/d/e.jpg" "w-10" "x-1" "hi" (by decide)

/-- C1 counterexample: caption `"ab?"` has base64 text `"YWI/"`, which
contains `/`; the emitted token is `"YWI/"` itself — the `/` is NOT replaced
by a percent-escape (it would have to become `%2F`), and the raw `/` even
reaches the produced URL inside the transform segment. -/
theorem caption_overlay_slash_unescaped :
    b64encode (utf8Bytes "ab?") = ['Y', 'W', 'I', '/'] ∧
    encode_text_for_overlay "ab?" = "YWI/" ∧
    '/' ∈ (encode_text_for_overlay "ab?").data ∧
    create_transformed_url "https://ik.io/abc/d/e.jpg" "w-10" (some "ab?") =
      "https://ik.io/abc/tr:l-text,ie-YWI/,ly-N20,lx-20,fs-100,co-white,bg-000000A0,l-end/d/e.jpg" := by
  refine ⟨by decide, by decide, by decide, by decide⟩

/-- C6: the token embedded by the caption branch round-trips: URL-decoding it
and then base64-decoding recovers exactly the caption's UTF-8 bytes. -/
theorem caption_token_roundtrip (caption : String) (hc : caption ≠ "") :
    b64decodeBytes (percentDecodeBytes (encode_text_for_overlay caption).data) =
      some (utf8Bytes caption) := by
  rw [encode_text_for_overlay, if_neg hc]
  show b64decodeBytes (percentDecodeBytes (percentQuote (b64encode (utf8Bytes caption)))) = _
  rw [percentDecode_quote _ (b64encode_ascii _)]
  exact b64decode_encode _ (utf8Bytes_lt caption)

/-- Witness for C6 at caption `"hi"`. -/
theorem caption_token_roundtrip_witness :
    b64decodeBytes (percentDecodeBytes (encode_text_for_overlay "hi").data) =
      some (utf8Bytes "hi") :=
  caption_token_roundtrip "hi" (by decide)

/-- C2 counterexample: when the login POST succeeds (status 200) and the
immediately following `GET /users/me` raises a transport exception, the
exception propagates past the login handler (`Except.error`), because
frontend.py line 106 sits outside the `try/except` of lines 92-96. -/
theorem login_identity_fetch_exception_propagates :
    login_handler { token := none, user := none, last_token_check_failed := false,
                    carrier := none }
        (Except.ok { status := 200, access_token := "tok" }) (Except.error ()) =
      Except.error () := by
  rfl

/-- C2 amended: transport exceptions raised by the login POST, the signup
POST and the reconcile identity fetch are caught inside their flows (login
and signup turn them into an error message, reconcile records the one-shot
failure flag); but the identity fetch that follows a successful login POST
is unguarded, and its transport exception propagates past the login
handler. -/
theorem transport_errors_caught_except_login_identity_fetch
    (s : Session) (me : Except Unit MeResp) (lr : LoginResp) :
    login_handler s (Except.error ()) me =
      Except.ok (s, [UiMsg.error "Could not contact backend. Is the API running?"]) ∧
    signup_handler s (Except.error ()) =
      Except.ok (s, [UiMsg.error "Could not contact backend. Is the API running?"]) ∧
    reconcileStep s (Except.error ()) =
      Except.ok (if reconcileGuard s then { s with last_token_check_failed := true } else s) ∧
    (lr.status = 200 →
      login_handler s (Except.ok lr) (Except.error ()) = Except.error ()) := by
  refine ⟨rfl, rfl, ?_, ?_⟩
  · simp only [reconcileStep]
    split
    · rfl
    · rfl
  · intro h
    simp only [login_handler, if_pos h]

/-- Witness for C2's amended statement at concrete inputs. -/
theorem transport_errors_caught_witness :
    login_handler { token := none, user := none, last_token_check_failed := false,
                    carrier := none } (Except.error ()) (Except.error ()) =
      Except.ok ({ token := none, user := none, last_token_check_failed := false,
                   carrier := none },
                 [UiMsg.error "Could not contact backend. Is the API running?"]) ∧
    signup_handler { token := none, user := none, last_token_check_failed := false,
                     carrier := none } (Except.error ()) =
      Except.ok ({ token := none, user := none, last_token_check_failed := false,
                   carrier := none },
                 [UiMsg.error "Could not contact backend. Is the API running?"]) ∧
    reconcileStep { token := none, user := none, last_token_check_failed := false,
                    carrier := none } (Except.error ()) =
      Except.ok (if reconcileGuard { token := none, user := none,
                                     last_token_check_failed := false, carrier := none }
                 then { token := none, user := none, last_token_check_failed := true,
                        carrier := none }
                 else { token := none, user := none, last_token_check_failed := false,
                        carrier := none }) ∧
    ((LoginResp.mk 200 "tok").status = 200 →
      login_handler { token := none, user := none, last_token_check_failed := false,
                      carrier := none }
          (Except.ok (LoginResp.mk 200 "tok")) (Except.error ()) = Except.error ()) :=
  transport_errors_caught_except_login_identity_fetch
    { token := none, user := none, last_token_check_failed := false, carrier := none }
    (Except.error ()) (LoginResp.mk 200 "tok")

/-- C3: token seeded from the carrier at start-up, no cached user, and
`/users/me` answers with a non-200 status: the reconcile block clears token,
user and carrier, sets the failure flag, its guard is false afterwards, and
a further reconcile step is a no-op for any oracle. -/
theorem reconcile_non200_clears_session (s : Session) (t : String) (r : MeResp)
    (me2 : Except Unit MeResp)
    (htok : s.token = some t) (htne : t ≠ "") (hcar : s.carrier = some t)
    (huser : s.user = none) (hflag : s.last_token_check_failed = false)
    (hst : r.status ≠ 200) :
    reconcileStep s (Except.ok r) =
      Except.ok { token := none, user := none, last_token_check_failed := true,
                  carrier := none } ∧
    stateOf { token := none, user := none, last_token_check_failed := true,
              carrier := none } = AuthState.Unauthenticated ∧
    reconcileGuard { token := none, user := none, last_token_check_failed := true,
                     carrier := none } = false ∧
    reconcileStep { token := none, user := none, last_token_check_failed := true,
                    carrier := none } me2 =
      Except.ok { token := none, user := none, last_token_check_failed := true,
                  carrier := none } := by
  obtain ⟨tok, user, flag, car⟩ := s
  simp only at htok huser hflag hcar
  subst htok huser hflag hcar
  refine ⟨?_, rfl, rfl, rfl⟩
  simp only [reconcileStep, reconcileGuard, if_neg hst]
  simp [htne]

/-- Witness for C3 at a concrete failing session. -/
theorem reconcile_non200_clears_session_witness :
    reconcileStep { token := some "tok", user := none, last_token_check_failed := false,
                    carrier := some "tok" }
        (Except.ok { status := 401, body := { email := "" } }) =
      Except.ok { token := none, user := none, last_token_check_failed := true,
                  carrier := none } ∧
    stateOf { token := none, user := none, last_token_check_failed := true,
              carrier := none } = AuthState.Unauthenticated ∧
    reconcileGuard { token := none, user := none, last_token_check_failed := true,
                     carrier := none } = false ∧
    reconcileStep { token := none, user := none, last_token_check_failed := true,
                    carrier := none } (Except.error ()) =
      Except.ok { token := none, user := none, last_token_check_failed := true,
                  carrier := none } :=
  reconcile_non200_clears_session
    { token := some "tok", user := none, last_token_check_failed := false,
      carrier := some "tok" }
    "tok" { status := 401, body := { email := "" } } (Except.error ())
    rfl (by decide) rfl rfl rfl (by decide)

/-- C4: a transport exception during the reconcile identity fetch leaves
token, user and carrier untouched and only sets the one-shot failure flag,
after which the guard is false and any further reconcile step is a no-op. -/
theorem reconcile_transport_error_preserves_session (s : Session) (t : String)
    (me2 : Except Unit MeResp)
    (htok : s.token = some t) (htne : t ≠ "")
    (huser : s.user = none) (hflag : s.last_token_check_failed = false) :
    reconcileStep s (Except.error ()) =
      Except.ok { s with last_token_check_failed := true } ∧
    ({ s with last_token_check_failed := true } : Session).token = some t ∧
    ({ s with last_token_check_failed := true } : Session).user = none ∧
    ({ s with last_token_check_failed := true } : Session).carrier = s.carrier ∧
    stateOf { s with last_token_check_failed := true } = AuthState.VerificationFailed ∧
    reconcileGuard { s with last_token_check_failed := true } = false ∧
    reconcileStep { s with last_token_check_failed := true } me2 =
      Except.ok { s with last_token_check_failed := true } := by
  obtain ⟨tok, user, flag, car⟩ := s
  simp only at htok huser hflag
  subst htok huser hflag
  refine ⟨?_, rfl, rfl, rfl, rfl, by simp [reconcileGuard], ?_⟩
  · simp only [reconcileStep, reconcileGuard]
    simp [htne]
  · simp [reconcileStep, reconcileGuard]

/-- Witness for C4 at a concrete session. -/
theorem reconcile_transport_error_preserves_session_witness :
    reconcileStep { token := some "tok", user := none, last_token_check_failed := false,
                    carrier := some "tok" } (Except.error ()) =
      Except.ok { token := some "tok", user := none, last_token_check_failed := true,
                  carrier := some "tok" } ∧
    ({ token := some "tok", user := none, last_token_check_failed := true,
       carrier := some "tok" } : Session).token = some "tok" ∧
    ({ token := some "tok", user := none, last_token_check_failed := true,
       carrier := some "tok" } : Session).user = none ∧
    ({ token := some "tok", user := none, last_token_check_failed := true,
       carrier := some "tok" } : Session).carrier = some "tok" ∧
    stateOf { token := some "tok", user := none, last_token_check_failed := true,
              carrier := some "tok" } = AuthState.VerificationFailed ∧
    reconcileGuard { token := some "tok", user := none, last_token_check_failed := true,
                     carrier := some "tok" } = false ∧
    reconcileStep { token := some "tok", user := none, last_token_check_failed := true,
                    carrier := some "tok" } (Except.ok { status := 200, body := { email := "x" } }) =
      Except.ok { token := some "tok", user := none, last_token_check_failed := true,
                  carrier := some "tok" } :=
  reconcile_transport_error_preserves_session
    { token := some "tok", user := none, last_token_check_failed := false,
      carrier := some "tok" }
    "tok" (Except.ok { status := 200, body := { email := "x" } })
    rfl (by decide) rfl rfl

/-- C7: a login POST answered 200 followed by `/users/me` answered 200, in
the single login handler invocation: the token is persisted to the carrier
and the resulting session is `Authenticated` with the backend-supplied
email. -/
theorem login_success_authenticates (s : Session) (lr : LoginResp) (mr : MeResp)
    (hl : lr.status = 200) (hm : mr.status = 200) :
    login_handler s (Except.ok lr) (Except.ok mr) =
      Except.ok ({ s with token := some lr.access_token,
                          carrier := some lr.access_token,
                          user := some mr.body }, [UiMsg.rerun]) ∧
    ({ s with token := some lr.access_token, carrier := some lr.access_token,
              user := some mr.body } : Session).carrier = some lr.access_token ∧
    stateOf { s with token := some lr.access_token, carrier := some lr.access_token,
                     user := some mr.body } = AuthState.Authenticated ∧
    Option.map UserIdentity.email
        ({ s with token := some lr.access_token, carrier := some lr.access_token,
                  user := some mr.body } : Session).user = some mr.body.email := by
  refine ⟨?_, rfl, rfl, rfl⟩
  simp only [login_handler, if_pos hl, if_pos hm]

/-- Witness for C7 at concrete responses. -/
theorem login_success_authenticates_witness :
    login_handler { token := none, user := none, last_token_check_failed := false,
                    carrier := none }
        (Except.ok { status := 200, access_token := "tok" })
        (Except.ok { status := 200, body := { email := "a@b.c" } }) =
      Except.ok ({ token := some "tok", user := some { email := "a@b.c" },
                   last_token_check_failed := false, carrier := some "tok" },
                 [UiMsg.rerun]) ∧
    ({ token := some "tok", user := some { email := "a@b.c" },
       last_token_check_failed := false, carrier := some "tok" } : Session).carrier =
      some "tok" ∧
    stateOf { token := some "tok", user := some { email := "a@b.c" },
              last_token_check_failed := false, carrier := some "tok" } =
      AuthState.Authenticated ∧
    Option.map UserIdentity.email
        ({ token := some "tok", user := some { email := "a@b.c" },
           last_token_check_failed := false, carrier := some "tok" } : Session).user =
      some "a@b.c" :=
  login_success_authenticates
    { token := none, user := none, last_token_check_failed := false, carrier := none }
    { status := 200, access_token := "tok" }
    { status := 200, body := { email := "a@b.c" } } rfl rfl

/-- C10: login POST 200 but `/users/me` non-200: the handler keeps the new
token in the session and in the carrier, does not touch user or the failure
flag, shows only the error message, and the session is left in
`PendingVerification`. -/
theorem login_me_non200_keeps_token (s : Session) (lr : LoginResp) (mr : MeResp)
    (huser : s.user = none) (hflag : s.last_token_check_failed = false)
    (hl : lr.status = 200) (hm : mr.status ≠ 200) :
    login_handler s (Except.ok lr) (Except.ok mr) =
      Except.ok ({ s with token := some lr.access_token,
                          carrier := some lr.access_token },
                 [UiMsg.error "Failed to get user info"]) ∧
    ({ s with token := some lr.access_token,
              carrier := some lr.access_token } : Session).token = some lr.access_token ∧
    ({ s with token := some lr.access_token,
              carrier := some lr.access_token } : Session).carrier = some lr.access_token ∧
    ({ s with token := some lr.access_token,
              carrier := some lr.access_token } : Session).user = none ∧
    ({ s with token := some lr.access_token,
              carrier := some lr.access_token } : Session).last_token_check_failed = false ∧
    stateOf { s with token := some lr.access_token, carrier := some lr.access_token } =
      AuthState.PendingVerification := by
  refine ⟨?_, rfl, rfl, huser, hflag, ?_⟩
  · simp only [login_handler, if_pos hl, if_neg hm]
  · simp only [stateOf, huser, hflag]
    rfl

/-- Witness for C10 at concrete responses. -/
theorem login_me_non200_keeps_token_witness :
    login_handler { token := none, user := none, last_token_check_failed := false,
                    carrier := none }
        (Except.ok { status := 200, access_token := "tok" })
        (Except.ok { status := 500, body := { email := "" } }) =
      Except.ok ({ token := some "tok", user := none, last_token_check_failed := false,
                   carrier := some "tok" },
                 [UiMsg.error "Failed to get user info"]) ∧
    ({ token := some "tok", user := none, last_token_check_failed := false,
       carrier := some "tok" } : Session).token = some "tok" ∧
    ({ token := some "tok", user := none, last_token_check_failed := false,
       carrier := some "tok" } : Session).carrier = some "tok" ∧
    ({ token := some "tok", user := none, last_token_check_failed := false,
       carrier := some "tok" } : Session).user = none ∧
    ({ token := some "tok", user := none, last_token_check_failed := false,
       carrier := some "tok" } : Session).last_token_check_failed = false ∧
    stateOf { token := some "tok", user := none, last_token_check_failed := false,
              carrier := some "tok" } = AuthState.PendingVerification :=
  login_me_non200_keeps_token
    { token := none, user := none, last_token_check_failed := false, carrier := none }
    { status := 200, access_token := "tok" }
    { status := 500, body := { email := "" } } rfl rfl rfl (by decide)

/-- C9: for a post whose `is_owner` is false or absent, the delete action is
not offered and the feed fragment issues no request at all (in particular no
DELETE for that post), whatever the click input. -/
theorem no_delete_for_non_owner (p : Post) (clicked : Bool)
    (h : p.is_owner = some false ∨ p.is_owner = none) :
    deleteOffered p = false ∧ postRenderRequests p clicked = [] := by
  have hfalse : deleteOffered p = false := by
    rcases h with h | h <;> simp [deleteOffered, h]
  exact ⟨hfalse, by simp [postRenderRequests, hfalse]⟩

/-- Witness for C9 at a concrete non-owner post. -/
theorem no_delete_for_non_owner_witness :
    deleteOffered { id := "p1", email := "a@b.c", created_at := "2024-01-01",
                    caption := "hi", file_type := "image", url := "u",
                    is_owner := some false } = false ∧
    postRenderRequests { id := "p1", email := "a@b.c", created_at := "2024-01-01",
                         caption := "hi", file_type := "image", url := "u",
                         is_owner := some false } true = [] :=
  no_delete_for_non_owner
    { id := "p1", email := "a@b.c", created_at := "2024-01-01", caption := "hi",
      file_type := "image", url := "u", is_owner := some false } true (Or.inl rfl)

end MediaApp
